import Mathlib

/-!
Verification of the reconciliation/synchronization controller
(`apic_sync.py`, `mechanism_apic.py`, `l3_apic.py`) against its
natural-language specification.

The Python code is shallowly embedded: each reconciliation entry point is
translated to a Lean function that returns the sequence of fabric-client
calls it would issue (a trace), together with an `Except` result where the
source can raise.  External collaborators (name mapper, core plugin reads,
fabric client results) are passed in as explicit function-valued fields.
-/

/-- Errors that the embedded Python code can raise.  `valueError` models the
tuple-unpacking failure of `split('/')`; `fabricError` an exception from a
fabric (APIC) call; `notFound` a failed database lookup. -/
inductive PyErr where
  | valueError
  | fabricError (msg : String)
  | notFound (msg : String)
  deriving DecidableEq, Repr

/-- Device-owner constant from `neutron.common.constants`
(`DEVICE_OWNER_ROUTER_GW`), external to the embedded files. -/
def DEVICE_OWNER_ROUTER_GW : String := "network:router_gateway"

/-- Device-owner constant from `neutron.common.constants`
(`DEVICE_OWNER_DHCP`). -/
def DEVICE_OWNER_DHCP : String := "network:dhcp"

/-- Device-owner constant from `neutron.common.constants`
(`DEVICE_OWNER_ROUTER_INTF`). -/
def DEVICE_OWNER_ROUTER_INTF : String := "network:router_interface"

/-- Network-type constant from `neutron.plugins.common.constants`
(`TYPE_VLAN`). -/
def TYPE_VLAN : String := "vlan"

/-! ## Synchronizer Engine (`SynchronizerBase.sync`, apic_sync.py lines 35-49) -/

/-- Observable outcome of `SynchronizerBase.sync`: the reconciliation
function was fired once synchronously (and `None` returned); a periodic
`FixedIntervalLoopingCall` was started and returned as a cancellable
handle; or nothing was fired at all. -/
inductive SyncOutcome where
  | firedOnce
  | periodicLoop (interval : Int)
  | noSync
  deriving DecidableEq, Repr

/-- Python truthiness of the `interval` attribute (`None` or an int):
`None`, and the int `0`, are falsy. -/
def pyTruthy : Option Int → Bool
  | Option.none => false
  | some i => decide (i ≠ 0)

namespace SynchronizerBase

/-- Embedding of `SynchronizerBase.sync`: `if self.interval:` guards the
periodic branch (`self.interval > 0` starts and returns the loop, a truthy
non-positive interval does nothing); the `else` branch fires `f` once
synchronously. -/
def sync (interval : Option Int) : SyncOutcome :=
  if pyTruthy interval then
    if 0 < interval.getD 0 then SyncOutcome.periodicLoop (interval.getD 0)
    else SyncOutcome.noSync
  else SyncOutcome.firedOnce

end SynchronizerBase

/-- Number of times the reconciliation function `f` is invoked immediately
(synchronously or at loop start) by a `sync` outcome.  That a started
`FixedIntervalLoopingCall` fires `f` immediately is modelled from the spec
(the looping-call library is an external collaborator not in the sources):
"`interval > 0`: fire once immediately, then schedule to fire again every
`interval` seconds". -/
def immediateInvocations : SyncOutcome → Nat
  | SyncOutcome.firedOnce => 1
  | SyncOutcome.periodicLoop _ => 1
  | SyncOutcome.noSync => 0

/-- Whether the `sync` outcome hands back a cancellable loop handle. -/
def returnsHandle : SyncOutcome → Bool
  | SyncOutcome.periodicLoop _ => true
  | _ => false

/-- C1 counterexample: with the interval unset (`None`, falsy and not
exactly 0) the code takes the `else` branch and fires the reconciliation
function exactly once, whereas the claim says it is never invoked. -/
theorem sync_unset_interval_fires_once :
    SynchronizerBase.sync Option.none = SyncOutcome.firedOnce ∧
    immediateInvocations (SynchronizerBase.sync Option.none) = 1 ∧
    SynchronizerBase.sync Option.none ≠ SyncOutcome.noSync := by
  refine ⟨rfl, rfl, ?_⟩
  intro h
  exact SyncOutcome.noConfusion h

/-- C1 (amended): `interval = 0` or unset fires the reconciliation
function exactly once synchronously (returning no handle); `interval > 0`
starts the periodic loop, invoking it immediately, and returns a
cancellable handle; a negative interval never invokes it. -/
theorem sync_mode_selection (interval : Option Int) :
    (interval = some 0 ∨ interval = Option.none →
      SynchronizerBase.sync interval = SyncOutcome.firedOnce ∧
      immediateInvocations (SynchronizerBase.sync interval) = 1 ∧
      returnsHandle (SynchronizerBase.sync interval) = false) ∧
    (∀ k : Int, interval = some k → 0 < k →
      SynchronizerBase.sync interval = SyncOutcome.periodicLoop k ∧
      immediateInvocations (SynchronizerBase.sync interval) = 1 ∧
      returnsHandle (SynchronizerBase.sync interval) = true) ∧
    (∀ k : Int, interval = some k → k < 0 →
      SynchronizerBase.sync interval = SyncOutcome.noSync ∧
      immediateInvocations (SynchronizerBase.sync interval) = 0) := by
  refine ⟨?_, ?_, ?_⟩
  · rintro (rfl | rfl) <;> exact ⟨rfl, rfl, rfl⟩
  · rintro k rfl hk
    have ht : pyTruthy (some k) = true := by
      simp [pyTruthy]
      omega
    have hg : (some k).getD 0 = k := rfl
    constructor
    · simp [SynchronizerBase.sync, ht, hg, hk]
    · constructor <;> simp [SynchronizerBase.sync, ht, hg, hk, immediateInvocations, returnsHandle]
  · rintro k rfl hk
    have ht : pyTruthy (some k) = true := by
      simp [pyTruthy]
      omega
    have hg : (some k).getD 0 = k := rfl
    have hnp : ¬ (0 < k) := by omega
    constructor <;> simp [SynchronizerBase.sync, ht, hg, hnp, immediateInvocations]

/-- Witness for `sync_mode_selection` at the three concrete intervals the
spec tests: 0, 5 and -1. -/
theorem sync_mode_selection_witness :
    SynchronizerBase.sync (some 0) = SyncOutcome.firedOnce ∧
    SynchronizerBase.sync (some 5) = SyncOutcome.periodicLoop 5 ∧
    SynchronizerBase.sync (some (-1)) = SyncOutcome.noSync :=
  ⟨((sync_mode_selection (some 0)).1 (Or.inl rfl)).1,
   ((sync_mode_selection (some 5)).2.1 5 rfl (by decide)).1,
   ((sync_mode_selection (some (-1))).2.2 (-1) rfl (by decide)).1⟩

/-- Embedding of Python `s.startswith(p)` (defined over the character
lists so that it evaluates inside the kernel). -/
def strStartsWith (s p : String) : Bool := p.data.isPrefixOf s.data

/-- Splitter over a character list used to embed Python
`s.split(sep)` for a one-character separator. -/
def splitCharAux (sep : Char) : List Char → List Char → List (List Char)
  | [], acc => [acc.reverse]
  | c :: rest, acc =>
    if c = sep then acc.reverse :: splitCharAux sep rest []
    else splitCharAux sep rest (c :: acc)

/-- Embedding of Python `s.split(sep)` for a one-character separator. -/
def splitOnChar (s : String) (sep : Char) : List String :=
  (splitCharAux sep s.data []).map (fun cs => String.mk cs)

/-! ## Data model (logical entities as seen by the driver contexts) -/

/-- Logical network dict: `{id, tenant_id, name, router:external}`.  The
`router:external` key is read with `.get`, so a missing key is the falsy
`false`. -/
structure Network where
  id : String
  tenant_id : String
  name : String
  router_external : Bool
  deriving DecidableEq, Repr

/-- Logical subnet dict (only the fields the synchronizer touches). -/
structure Subnet where
  id : String
  network_id : String
  tenant_id : String
  cidr : String
  gateway_ip : String
  deriving DecidableEq, Repr

/-- Logical port dict.  `host_id` models `port.get(portbindings.HOST_ID)`,
which is `None` when the binding key is absent. -/
structure Port where
  id : String
  network_id : String
  tenant_id : String
  device_owner : String
  device_id : String
  host_id : Option String
  deriving DecidableEq, Repr

/-- A bound segment dict: `binding:network_type` and `segmentation_id`
(the latter read with `.get`, hence optional). -/
structure BoundSegment where
  network_type : String
  segmentation_id : Option Nat
  deriving DecidableEq, Repr

/-- The ML2 `PortContext` as used by the driver: `context.current` (the
port), `context.network.current` (the owning network) and
`context.bound_segment` (possibly `None`). -/
structure PortContext where
  current : Port
  network : Network
  bound_segment : Option BoundSegment
  deriving DecidableEq, Repr

/-- One entry of the static external-network configuration table
(`apic_manager.ext_net_dict`), keyed by logical network name. -/
structure ExtNetInfo where
  cidr_exposed : String
  gateway_ip : String
  encap : Option String
  switch : String
  port : String
  deriving DecidableEq, Repr

/-- The Name Mapper contract (`apic_mapper.APICNameMapper`): deterministic
translation of logical IDs to fabric names, passed in as functions since
the mapper itself is an external collaborator. -/
structure NameMapper where
  tenant : String → String
  network : String → String
  router : String → String
  subnet : String → String

/-- Configuration and collaborators of one `APICMechanismDriver`
instance: its name mapper, the external-network table and the fabric's
answer to `get_router_contract` (an external, deterministic lookup). -/
structure ApicDriver where
  name_mapper : NameMapper
  ext_net_dict : String → Option ExtNetInfo
  contract_of : String → String

/-! ## Fabric-call traces -/

/-- One idempotent fabric (APIC manager) call, with the arguments the
driver passes. -/
inductive ApicOp where
  | get_router_contract (router : String)
  | ensure_context_enforced
  | ensure_external_routed_network_created (network : String)
  | ensure_logical_node_profile_created
      (network switch mod sport : String) (encap : Option String) (address : String)
  | ensure_static_route_created (network switch next_hop : String)
  | ensure_external_epg_created (network : String)
  | ensure_external_epg_consumed_contract (network contract : String)
  | ensure_external_epg_provided_contract (network contract : String)
  | ensure_path_created_for_port
      (tenant network : String) (host : Option String) (seg : Option Nat)
  | ensure_bd_created_on_apic (tenant network : String)
  | ensure_epg_created_for_network (tenant network : String)
  | delete_epg_for_network (tenant network : String)
  | delete_bd_on_apic (tenant network : String)
  | delete_external_routed_network (network : String)
  | delete_external_epg_contract (router network : String)
  deriving DecidableEq, Repr

/-- A fabric-trace item: a call issued inside a
`with ...transaction() as trs` scope (grouped with the other calls of that
scope) or a bare call outside any scope. -/
inductive TraceItem where
  | op (o : ApicOp)
  | transaction (ops : List ApicOp)
  deriving DecidableEq, Repr

/-! ## Event-driven reconciler (`mechanism_apic.py`) -/

namespace APICMechanismDriver

/-- Embedding of `_perform_path_port_operations` (lines 98-118): map
network and tenant, return early when no segment is bound, take the
segmentation id only for VLAN segments, and issue one
`ensure_path_created_for_port` inside a transaction. -/
def _perform_path_port_operations (d : ApicDriver) (ctx : PortContext) :
    List TraceItem :=
  let anetwork_id := d.name_mapper.network ctx.network.id
  let tenant_id := d.name_mapper.tenant ctx.current.tenant_id
  match ctx.bound_segment with
  | Option.none => []
  | some bseg =>
    let seg : Option Nat :=
      if bseg.network_type = TYPE_VLAN then bseg.segmentation_id
      else Option.none
    let host := ctx.current.host_id
    [TraceItem.transaction
      [ApicOp.ensure_path_created_for_port tenant_id anetwork_id host seg]]

/-- Embedding of `_perform_gw_port_operations` (lines 120-151): guarded by
`if router_id and router_info:` (a truthy `device_id` and a configured
external-network entry); `module, sport = router_info['port'].split('/')`
raises `ValueError` unless the split has exactly two parts; otherwise the
contract fetch and the seven ensure-calls are issued inside one
transaction scope. -/
def _perform_gw_port_operations (d : ApicDriver) (ctx : PortContext) :
    Except PyErr (List TraceItem) :=
  let router_id := ctx.current.device_id
  let network := ctx.network
  let anetwork_id := d.name_mapper.network network.id
  match d.ext_net_dict network.name with
  | some router_info =>
    if router_id ≠ "" then
      let address := router_info.cidr_exposed
      let next_hop := router_info.gateway_ip
      let encap := router_info.encap
      let switch := router_info.switch
      match splitOnChar router_info.port '/' with
      | [mod, sport] =>
        let arouter_id := d.name_mapper.router router_id
        let cid := d.contract_of arouter_id
        Except.ok
          [TraceItem.transaction
            [ApicOp.get_router_contract arouter_id,
             ApicOp.ensure_context_enforced,
             ApicOp.ensure_external_routed_network_created anetwork_id,
             ApicOp.ensure_logical_node_profile_created
               anetwork_id switch mod sport encap address,
             ApicOp.ensure_static_route_created anetwork_id switch next_hop,
             ApicOp.ensure_external_epg_created anetwork_id,
             ApicOp.ensure_external_epg_consumed_contract anetwork_id cid,
             ApicOp.ensure_external_epg_provided_contract anetwork_id cid]]
      | _ => Except.error PyErr.valueError
    else Except.ok []
  | Option.none => Except.ok []

/-- Embedding of `_delete_contract_if_gateway` (lines 153-161). -/
def _delete_contract_if_gateway (d : ApicDriver) (ctx : PortContext) :
    List TraceItem :=
  if ctx.current.device_owner = DEVICE_OWNER_ROUTER_GW then
    let network_id := d.name_mapper.network ctx.network.id
    let arouter_id := d.name_mapper.router ctx.current.device_id
    [TraceItem.op (ApicOp.delete_external_epg_contract arouter_id network_id)]
  else []

/-- Embedding of `_perform_port_operations` (lines 87-96): dispatch on
`device_owner` — a `compute` prefix or `network:dhcp` goes to the path
operations, `network:router_gateway` to the gateway operations, anything
else is a no-op. -/
def _perform_port_operations (d : ApicDriver) (ctx : PortContext) :
    Except PyErr (List TraceItem) :=
  let port := ctx.current
  if strStartsWith port.device_owner "compute" then
    Except.ok (_perform_path_port_operations d ctx)
  else if port.device_owner = DEVICE_OWNER_ROUTER_GW then
    _perform_gw_port_operations d ctx
  else if port.device_owner = DEVICE_OWNER_DHCP then
    Except.ok (_perform_path_port_operations d ctx)
  else Except.ok []

/-- Embedding of `create_port_postcommit` (its body after the `sync_init`
gate, which is modelled separately): delegate to
`_perform_port_operations`. -/
def create_port_postcommit (d : ApicDriver) (ctx : PortContext) :
    Except PyErr (List TraceItem) :=
  _perform_port_operations d ctx

/-- Embedding of `update_port_postcommit` (body after the gate). -/
def update_port_postcommit (d : ApicDriver) (ctx : PortContext) :
    Except PyErr (List TraceItem) :=
  _perform_port_operations d ctx

/-- Embedding of `delete_port_postcommit` (body after the gate). -/
def delete_port_postcommit (d : ApicDriver) (ctx : PortContext) :
    List TraceItem :=
  _delete_contract_if_gateway d ctx

/-- Embedding of `create_network_postcommit` (lines 176-191, body after
the gate): skip external networks, otherwise ensure bridge domain then EPG
inside one transaction. -/
def create_network_postcommit (d : ApicDriver) (net : Network) :
    List TraceItem :=
  if !net.router_external then
    let tenant_id := d.name_mapper.tenant net.tenant_id
    let network_id := d.name_mapper.network net.id
    [TraceItem.transaction
      [ApicOp.ensure_bd_created_on_apic tenant_id network_id,
       ApicOp.ensure_epg_created_for_network tenant_id network_id]]
  else []

/-- Embedding of `delete_network_postcommit` (lines 198-218, body after
the gate): non-external networks delete EPG then bridge domain inside one
transaction; external networks delete the external routed network only
when the name has an `ext_net_dict` entry. -/
def delete_network_postcommit (d : ApicDriver) (net : Network) :
    List TraceItem :=
  if !net.router_external then
    let tenant_id := d.name_mapper.tenant net.tenant_id
    let network_id := d.name_mapper.network net.id
    [TraceItem.transaction
      [ApicOp.delete_epg_for_network tenant_id network_id,
       ApicOp.delete_bd_on_apic tenant_id network_id]]
  else
    match d.ext_net_dict net.name with
    | some _ =>
      [TraceItem.op
        (ApicOp.delete_external_routed_network (d.name_mapper.network net.id))]
    | Option.none => []

end APICMechanismDriver

/-! ## Port and network event theorems -/

/-- Helper: for a port owned by a `compute`-prefixed owner or by the DHCP
agent, `_perform_port_operations` dispatches to the path-attachment
operations and raises nothing. -/
theorem perform_port_dispatch_path (d : ApicDriver) (ctx : PortContext)
    (hown : strStartsWith ctx.current.device_owner "compute" = true ∨
      ctx.current.device_owner = DEVICE_OWNER_DHCP) :
    APICMechanismDriver._perform_port_operations d ctx =
      Except.ok (APICMechanismDriver._perform_path_port_operations d ctx) := by
  rcases hown with h | h
  · simp [APICMechanismDriver._perform_port_operations, h]
  · have h1 : strStartsWith DEVICE_OWNER_DHCP "compute" = false := by decide
    have h2 : DEVICE_OWNER_DHCP ≠ DEVICE_OWNER_ROUTER_GW := by decide
    simp [APICMechanismDriver._perform_port_operations, h, h1, h2]

/-- Helper: with no bound segment the path-attachment operations issue no
fabric call. -/
theorem path_ops_unbound (d : ApicDriver) (ctx : PortContext)
    (hb : ctx.bound_segment = Option.none) :
    APICMechanismDriver._perform_path_port_operations d ctx = [] := by
  simp [APICMechanismDriver._perform_path_port_operations, hb]

/-- Helper: with a bound VLAN segment the path-attachment operations issue
exactly one `ensure_path_created_for_port` with the segmentation id,
inside a transaction. -/
theorem path_ops_vlan (d : ApicDriver) (ctx : PortContext) (S : Nat)
    (hb : ctx.bound_segment =
      some { network_type := TYPE_VLAN, segmentation_id := some S }) :
    APICMechanismDriver._perform_path_port_operations d ctx =
      [TraceItem.transaction
        [ApicOp.ensure_path_created_for_port
          (d.name_mapper.tenant ctx.current.tenant_id)
          (d.name_mapper.network ctx.network.id)
          ctx.current.host_id (some S)]] := by
  simp [APICMechanismDriver._perform_path_port_operations, hb]

/-- Helper: with a bound non-VLAN segment the path-attachment operations
still issue exactly one `ensure_path_created_for_port`, with `None` as the
segmentation argument. -/
theorem path_ops_nonvlan (d : ApicDriver) (ctx : PortContext)
    (bseg : BoundSegment) (hb : ctx.bound_segment = some bseg)
    (ht : bseg.network_type ≠ TYPE_VLAN) :
    APICMechanismDriver._perform_path_port_operations d ctx =
      [TraceItem.transaction
        [ApicOp.ensure_path_created_for_port
          (d.name_mapper.tenant ctx.current.tenant_id)
          (d.name_mapper.network ctx.network.id)
          ctx.current.host_id Option.none]] := by
  simp [APICMechanismDriver._perform_path_port_operations, hb, ht]

/-- C6: for a compute/DHCP port with no bound segment,
`create_port_postcommit` and `update_port_postcommit` issue zero fabric
calls and raise no error; for a port bound to a VLAN segment with
segmentation id `S` on host `H` they issue exactly one ensure-path call,
inside a transaction, with the mapped tenant, mapped network, `H` and
`S`. -/
theorem path_port_dispatch (d : ApicDriver) (ctx : PortContext)
    (hown : strStartsWith ctx.current.device_owner "compute" = true ∨
      ctx.current.device_owner = DEVICE_OWNER_DHCP) :
    (ctx.bound_segment = Option.none →
      APICMechanismDriver.create_port_postcommit d ctx = Except.ok [] ∧
      APICMechanismDriver.update_port_postcommit d ctx = Except.ok []) ∧
    (∀ (S : Nat) (H : String),
      ctx.bound_segment =
        some { network_type := TYPE_VLAN, segmentation_id := some S } →
      ctx.current.host_id = some H →
      APICMechanismDriver.create_port_postcommit d ctx =
        Except.ok [TraceItem.transaction
          [ApicOp.ensure_path_created_for_port
            (d.name_mapper.tenant ctx.current.tenant_id)
            (d.name_mapper.network ctx.network.id) (some H) (some S)]] ∧
      APICMechanismDriver.update_port_postcommit d ctx =
        Except.ok [TraceItem.transaction
          [ApicOp.ensure_path_created_for_port
            (d.name_mapper.tenant ctx.current.tenant_id)
            (d.name_mapper.network ctx.network.id) (some H) (some S)]]) := by
  have hd := perform_port_dispatch_path d ctx hown
  constructor
  · intro hb
    have hp := path_ops_unbound d ctx hb
    constructor <;>
      simp [APICMechanismDriver.create_port_postcommit,
        APICMechanismDriver.update_port_postcommit, hd, hp]
  · intro S H hb hh
    have hp := path_ops_vlan d ctx S hb
    rw [hh] at hp
    constructor <;>
      simp [APICMechanismDriver.create_port_postcommit,
        APICMechanismDriver.update_port_postcommit, hd, hp]

/-- C10: for a compute/DHCP port bound to a non-VLAN segment, the port
postcommit handlers still issue exactly one ensure-path call, with `None`
in place of a segmentation id. -/
theorem nonvlan_bound_path (d : ApicDriver) (ctx : PortContext)
    (bseg : BoundSegment)
    (hown : strStartsWith ctx.current.device_owner "compute" = true ∨
      ctx.current.device_owner = DEVICE_OWNER_DHCP)
    (hb : ctx.bound_segment = some bseg)
    (ht : bseg.network_type ≠ TYPE_VLAN) :
    APICMechanismDriver.create_port_postcommit d ctx =
      Except.ok [TraceItem.transaction
        [ApicOp.ensure_path_created_for_port
          (d.name_mapper.tenant ctx.current.tenant_id)
          (d.name_mapper.network ctx.network.id)
          ctx.current.host_id Option.none]] ∧
    APICMechanismDriver.update_port_postcommit d ctx =
      Except.ok [TraceItem.transaction
        [ApicOp.ensure_path_created_for_port
          (d.name_mapper.tenant ctx.current.tenant_id)
          (d.name_mapper.network ctx.network.id)
          ctx.current.host_id Option.none]] := by
  have hd := perform_port_dispatch_path d ctx hown
  have hp := path_ops_nonvlan d ctx bseg hb ht
  constructor <;>
    simp [APICMechanismDriver.create_port_postcommit,
      APICMechanismDriver.update_port_postcommit, hd, hp]

/-- C8: a gateway port whose network name has no external-network
configuration entry makes zero fabric calls and raises no error in the
port postcommit handlers. -/
theorem gw_port_unconfigured_noop (d : ApicDriver) (ctx : PortContext)
    (hown : ctx.current.device_owner = DEVICE_OWNER_ROUTER_GW)
    (habs : d.ext_net_dict ctx.network.name = Option.none) :
    APICMechanismDriver.create_port_postcommit d ctx = Except.ok [] ∧
    APICMechanismDriver.update_port_postcommit d ctx = Except.ok [] := by
  have h1 : strStartsWith DEVICE_OWNER_ROUTER_GW "compute" = false := by decide
  have hgw : APICMechanismDriver._perform_gw_port_operations d ctx =
      Except.ok [] := by
    simp [APICMechanismDriver._perform_gw_port_operations, habs]
  constructor <;>
    simp [APICMechanismDriver.create_port_postcommit,
      APICMechanismDriver.update_port_postcommit,
      APICMechanismDriver._perform_port_operations, hown, h1, hgw]

/-- C2: a gateway port with a truthy `device_id` on a configured external
network (whose `port` config splits into module and sub-port) makes the
router-contract fetch followed by exactly the seven ensure operations, in
this order, all inside a single transaction scope. -/
theorem gw_port_wiring_order (d : ApicDriver) (ctx : PortContext)
    (info : ExtNetInfo) (mod sport : String)
    (hown : ctx.current.device_owner = DEVICE_OWNER_ROUTER_GW)
    (hrid : ctx.current.device_id ≠ "")
    (hinfo : d.ext_net_dict ctx.network.name = some info)
    (hsplit : splitOnChar info.port '/' = [mod, sport]) :
    APICMechanismDriver.create_port_postcommit d ctx =
      Except.ok
        [TraceItem.transaction
          [ApicOp.get_router_contract
             (d.name_mapper.router ctx.current.device_id),
           ApicOp.ensure_context_enforced,
           ApicOp.ensure_external_routed_network_created
             (d.name_mapper.network ctx.network.id),
           ApicOp.ensure_logical_node_profile_created
             (d.name_mapper.network ctx.network.id) info.switch mod sport
             info.encap info.cidr_exposed,
           ApicOp.ensure_static_route_created
             (d.name_mapper.network ctx.network.id) info.switch
             info.gateway_ip,
           ApicOp.ensure_external_epg_created
             (d.name_mapper.network ctx.network.id),
           ApicOp.ensure_external_epg_consumed_contract
             (d.name_mapper.network ctx.network.id)
             (d.contract_of (d.name_mapper.router ctx.current.device_id)),
           ApicOp.ensure_external_epg_provided_contract
             (d.name_mapper.network ctx.network.id)
             (d.contract_of (d.name_mapper.router ctx.current.device_id))]] := by
  have h1 : strStartsWith DEVICE_OWNER_ROUTER_GW "compute" = false := by decide
  have hgw : APICMechanismDriver._perform_gw_port_operations d ctx =
      Except.ok
        [TraceItem.transaction
          [ApicOp.get_router_contract
             (d.name_mapper.router ctx.current.device_id),
           ApicOp.ensure_context_enforced,
           ApicOp.ensure_external_routed_network_created
             (d.name_mapper.network ctx.network.id),
           ApicOp.ensure_logical_node_profile_created
             (d.name_mapper.network ctx.network.id) info.switch mod sport
             info.encap info.cidr_exposed,
           ApicOp.ensure_static_route_created
             (d.name_mapper.network ctx.network.id) info.switch
             info.gateway_ip,
           ApicOp.ensure_external_epg_created
             (d.name_mapper.network ctx.network.id),
           ApicOp.ensure_external_epg_consumed_contract
             (d.name_mapper.network ctx.network.id)
             (d.contract_of (d.name_mapper.router ctx.current.device_id)),
           ApicOp.ensure_external_epg_provided_contract
             (d.name_mapper.network ctx.network.id)
             (d.contract_of (d.name_mapper.router ctx.current.device_id))]] := by
    simp [APICMechanismDriver._perform_gw_port_operations, hinfo, hrid, hsplit]
  simp [APICMechanismDriver.create_port_postcommit,
    APICMechanismDriver._perform_port_operations, hown, h1, hgw]

/-- C7: `create_network_postcommit` is a no-op for external networks and
ensures bridge domain then EPG (in one transaction) otherwise;
`delete_network_postcommit` deletes EPG then bridge domain (in one
transaction) for non-external networks, deletes the external routed
network for a configured external network, and does nothing for an
unconfigured external network. -/
theorem network_event_ordering (d : ApicDriver) (net : Network) :
    (net.router_external = true →
      APICMechanismDriver.create_network_postcommit d net = []) ∧
    (net.router_external = false →
      APICMechanismDriver.create_network_postcommit d net =
        [TraceItem.transaction
          [ApicOp.ensure_bd_created_on_apic
             (d.name_mapper.tenant net.tenant_id) (d.name_mapper.network net.id),
           ApicOp.ensure_epg_created_for_network
             (d.name_mapper.tenant net.tenant_id)
             (d.name_mapper.network net.id)]]) ∧
    (net.router_external = false →
      APICMechanismDriver.delete_network_postcommit d net =
        [TraceItem.transaction
          [ApicOp.delete_epg_for_network
             (d.name_mapper.tenant net.tenant_id) (d.name_mapper.network net.id),
           ApicOp.delete_bd_on_apic
             (d.name_mapper.tenant net.tenant_id)
             (d.name_mapper.network net.id)]]) ∧
    (net.router_external = true → ∀ info : ExtNetInfo,
      d.ext_net_dict net.name = some info →
      APICMechanismDriver.delete_network_postcommit d net =
        [TraceItem.op
          (ApicOp.delete_external_routed_network
            (d.name_mapper.network net.id))]) ∧
    (net.router_external = true → d.ext_net_dict net.name = Option.none →
      APICMechanismDriver.delete_network_postcommit d net = []) := by
  refine ⟨?_, ?_, ?_, ?_, ?_⟩
  · intro h
    simp [APICMechanismDriver.create_network_postcommit, h]
  · intro h
    simp [APICMechanismDriver.create_network_postcommit, h]
  · intro h
    simp [APICMechanismDriver.delete_network_postcommit, h]
  · intro h info hinfo
    simp [APICMechanismDriver.delete_network_postcommit, h, hinfo]
  · intro h habs
    simp [APICMechanismDriver.delete_network_postcommit, h, habs]

/-! ## Concrete witness data -/

/-- A concrete deterministic name mapper for witnesses. -/
def sampleMapper : NameMapper where
  tenant := fun t => "ap-t-" ++ t
  network := fun n => "ap-n-" ++ n
  router := fun r => "ap-r-" ++ r
  subnet := fun s => "ap-s-" ++ s

/-- A concrete external-network configuration entry. -/
def sampleExtInfo : ExtNetInfo where
  cidr_exposed := "10.1.0.1/24"
  gateway_ip := "10.1.0.254"
  encap := Option.none
  switch := "201"
  port := "1/33"

/-- A concrete driver: one configured external network named `ext-net`. -/
def sampleDriver : ApicDriver where
  name_mapper := sampleMapper
  ext_net_dict := fun nm => if nm = "ext-net" then some sampleExtInfo else Option.none
  contract_of := fun r => "ctr-" ++ r

/-- A compute port (`device_owner = "compute:nova"`) with no bound
segment. -/
def computePortUnbound : PortContext where
  current :=
    { id := "p1", network_id := "net1", tenant_id := "t1",
      device_owner := "compute:nova", device_id := "vm1",
      host_id := some "h1" }
  network :=
    { id := "net1", tenant_id := "t1", name := "net-one",
      router_external := false }
  bound_segment := Option.none

/-- The same compute port bound to VLAN segment 100 on host `h1`. -/
def computePortBound : PortContext :=
  { computePortUnbound with
    bound_segment :=
      some { network_type := TYPE_VLAN, segmentation_id := some 100 } }

/-- The same compute port bound to a GRE segment (non-VLAN). -/
def computePortBoundGre : PortContext :=
  { computePortUnbound with
    bound_segment :=
      some { network_type := "gre", segmentation_id := some 7 } }

/-- A gateway port for router `r1` on the configured external network. -/
def gwPortCtx : PortContext where
  current :=
    { id := "p2", network_id := "ext1", tenant_id := "t1",
      device_owner := DEVICE_OWNER_ROUTER_GW, device_id := "r1",
      host_id := Option.none }
  network :=
    { id := "ext1", tenant_id := "t1", name := "ext-net",
      router_external := true }
  bound_segment := Option.none

/-- A gateway port on an external network absent from the configuration
table. -/
def gwPortCtxUnconfigured : PortContext :=
  { gwPortCtx with
    network :=
      { id := "ext2", tenant_id := "t1", name := "other-net",
        router_external := true } }

/-- A concrete non-external logical network. -/
def sampleNetInternal : Network :=
  { id := "net1", tenant_id := "t1", name := "net-one",
    router_external := false }

/-- A concrete external logical network with a configuration entry. -/
def sampleNetExternal : Network :=
  { id := "ext1", tenant_id := "t1", name := "ext-net",
    router_external := true }

/-- Witness for `path_port_dispatch` on the concrete compute port: zero
calls unbound, one concrete ensure-path call when bound to VLAN 100 on
host `h1`. -/
theorem path_port_dispatch_witness :
    (APICMechanismDriver.create_port_postcommit sampleDriver computePortUnbound =
        Except.ok [] ∧
      APICMechanismDriver.update_port_postcommit sampleDriver computePortUnbound =
        Except.ok []) ∧
    APICMechanismDriver.create_port_postcommit sampleDriver computePortBound =
      Except.ok [TraceItem.transaction
        [ApicOp.ensure_path_created_for_port "ap-t-t1" "ap-n-net1"
          (some "h1") (some 100)]] := by
  refine ⟨(path_port_dispatch sampleDriver computePortUnbound
    (Or.inl (by decide))).1 rfl, ?_⟩
  exact ((path_port_dispatch sampleDriver computePortBound
    (Or.inl (by decide))).2 100 "h1" rfl rfl).1

/-- Witness for `nonvlan_bound_path` on the GRE-bound compute port. -/
theorem nonvlan_bound_path_witness :
    APICMechanismDriver.create_port_postcommit sampleDriver computePortBoundGre =
      Except.ok [TraceItem.transaction
        [ApicOp.ensure_path_created_for_port "ap-t-t1" "ap-n-net1"
          (some "h1") Option.none]] ∧
    APICMechanismDriver.update_port_postcommit sampleDriver computePortBoundGre =
      Except.ok [TraceItem.transaction
        [ApicOp.ensure_path_created_for_port "ap-t-t1" "ap-n-net1"
          (some "h1") Option.none]] :=
  nonvlan_bound_path sampleDriver computePortBoundGre
    { network_type := "gre", segmentation_id := some 7 }
    (Or.inl (by decide)) rfl (by decide)

/-- Witness for `gw_port_unconfigured_noop` on the gateway port whose
network has no configuration entry. -/
theorem gw_port_unconfigured_noop_witness :
    APICMechanismDriver.create_port_postcommit sampleDriver gwPortCtxUnconfigured =
      Except.ok [] ∧
    APICMechanismDriver.update_port_postcommit sampleDriver gwPortCtxUnconfigured =
      Except.ok [] :=
  gw_port_unconfigured_noop sampleDriver gwPortCtxUnconfigured rfl (by decide)

/-- Witness for `gw_port_wiring_order` on the concrete gateway port: the
full concrete trace, contract fetch first, then the seven ensures in
order, inside one transaction. -/
theorem gw_port_wiring_order_witness :
    APICMechanismDriver.create_port_postcommit sampleDriver gwPortCtx =
      Except.ok
        [TraceItem.transaction
          [ApicOp.get_router_contract "ap-r-r1",
           ApicOp.ensure_context_enforced,
           ApicOp.ensure_external_routed_network_created "ap-n-ext1",
           ApicOp.ensure_logical_node_profile_created "ap-n-ext1" "201"
             "1" "33" Option.none "10.1.0.1/24",
           ApicOp.ensure_static_route_created "ap-n-ext1" "201" "10.1.0.254",
           ApicOp.ensure_external_epg_created "ap-n-ext1",
           ApicOp.ensure_external_epg_consumed_contract "ap-n-ext1"
             "ctr-ap-r-r1",
           ApicOp.ensure_external_epg_provided_contract "ap-n-ext1"
             "ctr-ap-r-r1"]] :=
  gw_port_wiring_order sampleDriver gwPortCtx sampleExtInfo "1" "33"
    rfl (by decide) (by decide) (by decide)

/-- Witness for `network_event_ordering` on concrete internal and external
networks. -/
theorem network_event_ordering_witness :
    APICMechanismDriver.create_network_postcommit sampleDriver sampleNetExternal = [] ∧
    APICMechanismDriver.create_network_postcommit sampleDriver sampleNetInternal =
      [TraceItem.transaction
        [ApicOp.ensure_bd_created_on_apic "ap-t-t1" "ap-n-net1",
         ApicOp.ensure_epg_created_for_network "ap-t-t1" "ap-n-net1"]] ∧
    APICMechanismDriver.delete_network_postcommit sampleDriver sampleNetInternal =
      [TraceItem.transaction
        [ApicOp.delete_epg_for_network "ap-t-t1" "ap-n-net1",
         ApicOp.delete_bd_on_apic "ap-t-t1" "ap-n-net1"]] ∧
    APICMechanismDriver.delete_network_postcommit sampleDriver sampleNetExternal =
      [TraceItem.op (ApicOp.delete_external_routed_network "ap-n-ext1")] :=
  ⟨(network_event_ordering sampleDriver sampleNetExternal).1 rfl,
   (network_event_ordering sampleDriver sampleNetInternal).2.1 rfl,
   (network_event_ordering sampleDriver sampleNetInternal).2.2.1 rfl,
   (network_event_ordering sampleDriver sampleNetExternal).2.2.2.1 rfl
     sampleExtInfo (by decide)⟩

/-! ## Base and Router Synchronizers (`apic_sync.py`) -/

/-- The core plugin's read API as used by the synchronizers
(`get_networks`, `get_subnets`, `get_ports`, `get_network`); `get_network`
can raise (a not-found lookup), and that call sits outside the per-entity
`try` in `_sync_base`. -/
structure CorePlugin where
  networks : List Network
  subnets : List Subnet
  ports : List Port
  get_network : String → Except PyErr Network

/-- The driver callbacks replayed by `_sync_base`
(`self.driver.create_*_postcommit`), each of which may raise. -/
structure SyncDriver where
  create_network_postcommit : Network → Except PyErr Unit
  create_subnet_postcommit : Subnet → Except PyErr Unit
  create_port_postcommit : Port → Network → Except PyErr Unit

/-- Observable events of a base-resync pass: one attempt per entity, and
one logged warning per failed replay. -/
inductive SyncEvent where
  | attemptNetwork (id : String)
  | warnNetwork (id : String)
  | attemptSubnet (id : String)
  | warnSubnet (id : String)
  | attemptPort (id : String)
  | warnPort (id : String)
  deriving DecidableEq, Repr

/-- The network loop of `_sync_base` (lines 61-68): replay each network's
create path, catching any exception and logging a warning. -/
def syncNetworks (d : SyncDriver) : List Network → List SyncEvent
  | [] => []
  | n :: rest =>
    (SyncEvent.attemptNetwork n.id ::
      (match d.create_network_postcommit n with
       | Except.ok _ => []
       | Except.error _ => [SyncEvent.warnNetwork n.id])) ++ syncNetworks d rest

/-- The subnet loop of `_sync_base` (lines 71-78). -/
def syncSubnets (d : SyncDriver) : List Subnet → List SyncEvent
  | [] => []
  | s :: rest =>
    (SyncEvent.attemptSubnet s.id ::
      (match d.create_subnet_postcommit s with
       | Except.ok _ => []
       | Except.error _ => [SyncEvent.warnSubnet s.id])) ++ syncSubnets d rest

/-- The port loop of `_sync_base` (lines 81-89): the owning network is
fetched with `get_network` outside the `try` block (so a failed fetch
propagates), then the port's create path is replayed with the failure
caught. -/
def syncPorts (p : CorePlugin) (d : SyncDriver) :
    List Port → Except PyErr (List SyncEvent)
  | [] => Except.ok []
  | port :: rest =>
    match p.get_network port.network_id with
    | Except.error e => Except.error e
    | Except.ok network =>
      let evs := SyncEvent.attemptPort port.id ::
        (match d.create_port_postcommit port network with
         | Except.ok _ => []
         | Except.error _ => [SyncEvent.warnPort port.id])
      match syncPorts p d rest with
      | Except.error e => Except.error e
      | Except.ok tail => Except.ok (evs ++ tail)

/-- Embedding of `ApicBaseSynchronizer._sync_base` (lines 57-89):
networks, then subnets, then ports. -/
def ApicBaseSynchronizer._sync_base (p : CorePlugin) (d : SyncDriver) :
    Except PyErr (List SyncEvent) :=
  let netEvs := syncNetworks d p.networks
  let subEvs := syncSubnets d p.subnets
  match syncPorts p d p.ports with
  | Except.error e => Except.error e
  | Except.ok portEvs => Except.ok (netEvs ++ subEvs ++ portEvs)

/-- Whether an `Except` result is a normal return. -/
def exceptOk {ε α : Type} : Except ε α → Bool
  | Except.ok _ => true
  | Except.error _ => false

/-- Whether a sync event is a replay attempt (as opposed to a warning). -/
def isAttempt : SyncEvent → Bool
  | SyncEvent.attemptNetwork _ => true
  | SyncEvent.attemptSubnet _ => true
  | SyncEvent.attemptPort _ => true
  | _ => false

/-- The subsequence of replay attempts in a base-resync trace. -/
def attemptsOf (evs : List SyncEvent) : List SyncEvent :=
  evs.filter isAttempt

/-- Helper: `attemptsOf` distributes over append. -/
theorem attemptsOf_append (a b : List SyncEvent) :
    attemptsOf (a ++ b) = attemptsOf a ++ attemptsOf b := by
  simp [attemptsOf, List.filter_append]

/-- Helper: the network loop attempts every network, in order. -/
theorem attemptsOf_syncNetworks (d : SyncDriver) (ns : List Network) :
    attemptsOf (syncNetworks d ns) =
      ns.map (fun n => SyncEvent.attemptNetwork n.id) := by
  induction ns with
  | nil => rfl
  | cons n rest ih =>
    simp only [syncNetworks]
    rw [attemptsOf_append, ih]
    cases hres : d.create_network_postcommit n <;>
      simp [attemptsOf, List.filter, isAttempt]

/-- Helper: the subnet loop attempts every subnet, in order. -/
theorem attemptsOf_syncSubnets (d : SyncDriver) (ss : List Subnet) :
    attemptsOf (syncSubnets d ss) =
      ss.map (fun s => SyncEvent.attemptSubnet s.id) := by
  induction ss with
  | nil => rfl
  | cons s rest ih =>
    simp only [syncSubnets]
    rw [attemptsOf_append, ih]
    cases hres : d.create_subnet_postcommit s <;>
      simp [attemptsOf, List.filter, isAttempt]

/-- Helper: a failed network replay leaves its warning in the trace. -/
theorem warn_mem_syncNetworks (d : SyncDriver) (ns : List Network) :
    ∀ n ∈ ns, exceptOk (d.create_network_postcommit n) = false →
      SyncEvent.warnNetwork n.id ∈ syncNetworks d ns := by
  induction ns with
  | nil => intro n hn; cases hn
  | cons m rest ih =>
    intro n hn hfail
    rcases List.mem_cons.mp hn with heq | hn2
    · subst heq
      cases hres : d.create_network_postcommit n with
      | ok v => rw [hres] at hfail; simp [exceptOk] at hfail
      | error e => simp [syncNetworks, hres]
    · simp only [syncNetworks]
      exact List.mem_append.mpr (Or.inr (ih n hn2 hfail))

/-- Helper: a failed subnet replay leaves its warning in the trace. -/
theorem warn_mem_syncSubnets (d : SyncDriver) (ss : List Subnet) :
    ∀ s ∈ ss, exceptOk (d.create_subnet_postcommit s) = false →
      SyncEvent.warnSubnet s.id ∈ syncSubnets d ss := by
  induction ss with
  | nil => intro s hs; cases hs
  | cons m rest ih =>
    intro s hs hfail
    rcases List.mem_cons.mp hs with heq | hs2
    · subst heq
      cases hres : d.create_subnet_postcommit s with
      | ok v => rw [hres] at hfail; simp [exceptOk] at hfail
      | error e => simp [syncSubnets, hres]
    · simp only [syncSubnets]
      exact List.mem_append.mpr (Or.inr (ih s hs2 hfail))

/-- Helper: when every owning-network fetch succeeds, the port loop
returns normally, attempts every port in order, and records a warning for
every failed port replay. -/
theorem syncPorts_ok (p : CorePlugin) (d : SyncDriver) (ports : List Port)
    (hall : ∀ q ∈ ports, exceptOk (p.get_network q.network_id) = true) :
    ∃ evs, syncPorts p d ports = Except.ok evs ∧
      attemptsOf evs = ports.map (fun q => SyncEvent.attemptPort q.id) ∧
      (∀ q ∈ ports, ∀ net, p.get_network q.network_id = Except.ok net →
        exceptOk (d.create_port_postcommit q net) = false →
        SyncEvent.warnPort q.id ∈ evs) := by
  induction ports with
  | nil => exact ⟨[], rfl, rfl, by intro q hq; cases hq⟩
  | cons port rest ih =>
    have hp := hall port (List.mem_cons_self port rest)
    cases hg : p.get_network port.network_id with
    | error e => rw [hg] at hp; simp [exceptOk] at hp
    | ok net =>
      obtain ⟨tail, htail, hatt, hwarn⟩ :=
        ih (fun q hq => hall q (List.mem_cons_of_mem port hq))
      refine ⟨(SyncEvent.attemptPort port.id ::
          (match d.create_port_postcommit port net with
           | Except.ok _ => []
           | Except.error _ => [SyncEvent.warnPort port.id])) ++ tail,
        ?_, ?_, ?_⟩
      · simp [syncPorts, hg, htail]
      · rw [attemptsOf_append, hatt]
        cases hres : d.create_port_postcommit port net <;>
          simp [attemptsOf, List.filter, isAttempt]
      · intro q hq net2 hg2 hfail
        rcases List.mem_cons.mp hq with heq | hq2
        · subst heq
          rw [hg] at hg2
          injection hg2 with hnet
          subst hnet
          cases hres : d.create_port_postcommit q net with
          | ok v => rw [hres] at hfail; simp [exceptOk] at hfail
          | error e => simp [hres]
        · exact List.mem_append.mpr (Or.inr (hwarn q hq2 net2 hg2 hfail))

/-- C3: when only per-entity replays can fail (every owning-network fetch
succeeds), a full `_sync_base` pass returns normally (raises nothing),
attempts the replay for every network, subnet and port in order, and logs
a warning for every entity whose replay raised. -/
theorem sync_base_isolation (p : CorePlugin) (d : SyncDriver)
    (hall : ∀ q ∈ p.ports, exceptOk (p.get_network q.network_id) = true) :
    ∃ evs, ApicBaseSynchronizer._sync_base p d = Except.ok evs ∧
      attemptsOf evs =
        p.networks.map (fun n => SyncEvent.attemptNetwork n.id) ++
        p.subnets.map (fun s => SyncEvent.attemptSubnet s.id) ++
        p.ports.map (fun q => SyncEvent.attemptPort q.id) ∧
      (∀ n ∈ p.networks, exceptOk (d.create_network_postcommit n) = false →
        SyncEvent.warnNetwork n.id ∈ evs) ∧
      (∀ s ∈ p.subnets, exceptOk (d.create_subnet_postcommit s) = false →
        SyncEvent.warnSubnet s.id ∈ evs) ∧
      (∀ q ∈ p.ports, ∀ net, p.get_network q.network_id = Except.ok net →
        exceptOk (d.create_port_postcommit q net) = false →
        SyncEvent.warnPort q.id ∈ evs) := by
  obtain ⟨portEvs, hports, hatt, hwarn⟩ := syncPorts_ok p d p.ports hall
  refine ⟨syncNetworks d p.networks ++ syncSubnets d p.subnets ++ portEvs,
    ?_, ?_, ?_, ?_, ?_⟩
  · simp [ApicBaseSynchronizer._sync_base, hports]
  · rw [attemptsOf_append, attemptsOf_append, attemptsOf_syncNetworks,
      attemptsOf_syncSubnets, hatt]
  · intro n hn hf
    exact List.mem_append.mpr (Or.inl (List.mem_append.mpr
      (Or.inl (warn_mem_syncNetworks d p.networks n hn hf))))
  · intro s hs hf
    exact List.mem_append.mpr (Or.inl (List.mem_append.mpr
      (Or.inr (warn_mem_syncSubnets d p.subnets s hs hf))))
  · intro q hq net hg hf
    exact List.mem_append.mpr (Or.inr (hwarn q hq net hg hf))

/-! ## Router Synchronizer (`ApicRouterSynchronizer._sync_router`) -/

/-- Observable events of a router-resync pass. -/
inductive RouterSyncEvent where
  | attemptAddInterface (router port_id : String)
  | warnAddInterface (router port_id : String)
  deriving DecidableEq, Repr

/-- The selection test of `_sync_router`:
`interface['device_owner'] == r_if`. -/
def isRouterIf (q : Port) : Bool :=
  decide (q.device_owner = DEVICE_OWNER_ROUTER_INTF)

/-- The loop of `_sync_router` (lines 101-110): for each port owned by the
router-interface constant, replay `add_router_interface_postcommit` with
the port's `device_id` as router and the port's id as the interface,
catching any exception and logging a warning. -/
def syncRouterPorts (replay : String → String → Except PyErr Unit) :
    List Port → List RouterSyncEvent
  | [] => []
  | intf :: rest =>
    (if isRouterIf intf then
      RouterSyncEvent.attemptAddInterface intf.device_id intf.id ::
        (match replay intf.device_id intf.id with
         | Except.ok _ => []
         | Except.error _ =>
           [RouterSyncEvent.warnAddInterface intf.device_id intf.id])
     else []) ++ syncRouterPorts replay rest

/-- Embedding of `ApicRouterSynchronizer._sync_router` (lines 97-110). -/
def ApicRouterSynchronizer._sync_router (p : CorePlugin)
    (replay : String → String → Except PyErr Unit) : List RouterSyncEvent :=
  syncRouterPorts replay p.ports

/-- Whether a router-resync event is a replay attempt. -/
def isRouterAttempt : RouterSyncEvent → Bool
  | RouterSyncEvent.attemptAddInterface _ _ => true
  | _ => false

/-- The subsequence of replay attempts in a router-resync trace. -/
def routerAttemptsOf (evs : List RouterSyncEvent) : List RouterSyncEvent :=
  evs.filter isRouterAttempt

/-- Helper: `routerAttemptsOf` distributes over append. -/
theorem routerAttemptsOf_append (a b : List RouterSyncEvent) :
    routerAttemptsOf (a ++ b) = routerAttemptsOf a ++ routerAttemptsOf b := by
  simp [routerAttemptsOf, List.filter_append]

/-- Helper: the router loop attempts exactly the router-interface ports,
in order, with their `device_id` and port id. -/
theorem routerAttemptsOf_syncRouterPorts
    (replay : String → String → Except PyErr Unit) (ports : List Port) :
    routerAttemptsOf (syncRouterPorts replay ports) =
      (ports.filter isRouterIf).map
        (fun q => RouterSyncEvent.attemptAddInterface q.device_id q.id) := by
  induction ports with
  | nil => rfl
  | cons q rest ih =>
    simp only [syncRouterPorts]
    rw [routerAttemptsOf_append, ih]
    by_cases h : isRouterIf q
    · rw [if_pos h, List.filter_cons_of_pos h]
      cases hres : replay q.device_id q.id <;>
        simp [routerAttemptsOf, List.filter, isRouterAttempt]
    · rw [if_neg h, List.filter_cons_of_neg (by simpa using h)]
      simp [routerAttemptsOf, List.filter]

/-- Helper: a failed interface replay leaves its warning in the trace. -/
theorem warn_mem_syncRouterPorts
    (replay : String → String → Except PyErr Unit) (ports : List Port) :
    ∀ q ∈ ports, q.device_owner = DEVICE_OWNER_ROUTER_INTF →
      exceptOk (replay q.device_id q.id) = false →
      RouterSyncEvent.warnAddInterface q.device_id q.id ∈
        syncRouterPorts replay ports := by
  induction ports with
  | nil => intro q hq; cases hq
  | cons m rest ih =>
    intro q hq hown hfail
    rcases List.mem_cons.mp hq with heq | hq2
    · subst heq
      have hif : isRouterIf q = true := by simp [isRouterIf, hown]
      cases hres : replay q.device_id q.id with
      | ok v => rw [hres] at hfail; simp [exceptOk] at hfail
      | error e => simp [syncRouterPorts, hif, hres]
    · simp only [syncRouterPorts]
      exact List.mem_append.mpr (Or.inr (ih q hq2 hown hfail))

/-- C9: a full `_sync_router` pass attempts the add-router-interface
replay exactly for the ports whose `device_owner` is the router-interface
constant (in order, passing `device_id` as the router and the port id as
the interface) and for no other port; a failed replay is logged as a
warning and neither stops the loop nor propagates. -/
theorem sync_router_selection (p : CorePlugin)
    (replay : String → String → Except PyErr Unit) :
    routerAttemptsOf (ApicRouterSynchronizer._sync_router p replay) =
      (p.ports.filter isRouterIf).map
        (fun q => RouterSyncEvent.attemptAddInterface q.device_id q.id) ∧
    (∀ q ∈ p.ports, q.device_owner = DEVICE_OWNER_ROUTER_INTF →
      exceptOk (replay q.device_id q.id) = false →
      RouterSyncEvent.warnAddInterface q.device_id q.id ∈
        ApicRouterSynchronizer._sync_router p replay) :=
  ⟨routerAttemptsOf_syncRouterPorts replay p.ports,
   warn_mem_syncRouterPorts replay p.ports⟩

/-! ## Lazy sync-once gate (`sync_init` in mechanism_apic.py and l3_apic.py) -/

/-- Observable events of the `sync_init` decorator around a guarded entry
point: constructing the synchronizer, triggering the full resync
(`sync_base()` / `sync_router()`), and running the wrapped method. -/
inductive GateEvent where
  | constructSynchronizer
  | resyncTrigger
  | handleEvent
  deriving DecidableEq, Repr

/-- Embedding of one guarded invocation (`sync_init.inner`): when
`inst.synchronizer` is unset, construct the synchronizer, trigger the full
resync, then run the wrapped method; otherwise just run the wrapped
method.  The state is the presence of the synchronizer handle. -/
def sync_init_call (syn : Option Unit) : Option Unit × List GateEvent :=
  match syn with
  | Option.none =>
    (some (), [GateEvent.constructSynchronizer, GateEvent.resyncTrigger,
      GateEvent.handleEvent])
  | some h => (some h, [GateEvent.handleEvent])

/-- A sequence of `n` guarded invocations on one driver instance, threading
the synchronizer handle and concatenating the event traces. -/
def runGuardedCalls : Option Unit → Nat → Option Unit × List GateEvent
  | syn, 0 => (syn, [])
  | syn, Nat.succ k =>
    let step := sync_init_call syn
    let rest := runGuardedCalls step.1 k
    (rest.1, step.2 ++ rest.2)

/-- Occurrence count of a gate event in a trace. -/
def countEvent (e : GateEvent) : List GateEvent → Nat
  | [] => 0
  | x :: rest => (if x = e then 1 else 0) + countEvent e rest

/-- Helper: once the handle is set, guarded calls only handle events. -/
theorem runGuardedCalls_initialized (k : Nat) :
    runGuardedCalls (some ()) k =
      (some (), List.replicate k GateEvent.handleEvent) := by
  induction k with
  | zero => rfl
  | succ k ih => simp [runGuardedCalls, sync_init_call, ih, List.replicate_succ]

/-- Helper: a replicated `handleEvent` trace contains no other event. -/
theorem countEvent_replicate_handle (k : Nat) (e : GateEvent)
    (hne : e ≠ GateEvent.handleEvent) :
    countEvent e (List.replicate k GateEvent.handleEvent) = 0 := by
  induction k with
  | zero => rfl
  | succ k ih =>
    have hx : GateEvent.handleEvent ≠ e := fun h => hne h.symm
    simp [List.replicate_succ, countEvent, hx, ih]

/-- C5: starting from a fresh instance (no synchronizer handle), a
sequence of `n ≥ 1` guarded invocations constructs the synchronizer and
triggers the full resync exactly once, before the first triggering event
is handled; every later invocation only handles its event, and the handle
stays set. -/
theorem lazy_sync_once_gate (n : Nat) (h : 1 ≤ n) :
    runGuardedCalls Option.none n =
      (some (), GateEvent.constructSynchronizer :: GateEvent.resyncTrigger ::
        GateEvent.handleEvent ::
        List.replicate (n - 1) GateEvent.handleEvent) ∧
    countEvent GateEvent.resyncTrigger (runGuardedCalls Option.none n).2 = 1 ∧
    countEvent GateEvent.constructSynchronizer
      (runGuardedCalls Option.none n).2 = 1 := by
  obtain ⟨k, rfl⟩ : ∃ k, n = k + 1 := ⟨n - 1, by omega⟩
  have h1 : runGuardedCalls Option.none (k + 1) =
      (some (), GateEvent.constructSynchronizer :: GateEvent.resyncTrigger ::
        GateEvent.handleEvent :: List.replicate k GateEvent.handleEvent) := by
    simp [runGuardedCalls, sync_init_call, runGuardedCalls_initialized k]
  refine ⟨by simpa using h1, ?_, ?_⟩
  · rw [h1]
    simp [countEvent, countEvent_replicate_handle k GateEvent.resyncTrigger
      (by simp)]
  · rw [h1]
    simp [countEvent, countEvent_replicate_handle k
      GateEvent.constructSynchronizer (by simp)]

/-- Witness for `lazy_sync_once_gate` at two guarded invocations: one
construct and one resync trigger before the first event, none after. -/
theorem lazy_sync_once_gate_witness :
    runGuardedCalls Option.none 2 =
      (some (), [GateEvent.constructSynchronizer, GateEvent.resyncTrigger,
        GateEvent.handleEvent, GateEvent.handleEvent]) ∧
    countEvent GateEvent.resyncTrigger (runGuardedCalls Option.none 2).2 = 1 := by
  have h := lazy_sync_once_gate 2 (by decide)
  exact ⟨h.1, h.2.1⟩

/-! ## L3 service plugin (`l3_apic.py`) -/

/-- The `interface_info` dict of the router-interface API: either a
`subnet_id` or a `port_id` key. -/
inductive InterfaceInfo where
  | bySubnet (subnet_id : String)
  | byPort (port_id : String)
  deriving DecidableEq, Repr

/-- Persistence-layer (DB mixin) calls observed during
`add_router_interface`. -/
inductive L3Event where
  | dbAddRouterInterface (router : String) (info : InterfaceInfo)
  | dbRemoveRouterInterface (router : String) (info : InterfaceInfo)
  deriving DecidableEq, Repr

/-- Collaborators of one `ApicL3ServicePlugin` instance: the name mapper,
the DB reads (`get_subnet`, `get_port`), the fabric client's
`add_router_interface` (which may raise), and the logical-side result the
DB mixin's `add_router_interface` returns.  `ρ` is the opaque result
type. -/
structure L3Plugin (ρ : Type) where
  name_mapper : NameMapper
  get_subnet : String → Subnet
  get_port : String → Port
  fabric_add_router_interface : String → String → String → Except PyErr Unit
  db_add_result : String → InterfaceInfo → ρ

/-- Python `a and b` on strings: an empty (falsy) left operand
short-circuits. -/
def pyAndStr (a b : String) : String := if a = "" then a else b

/-- Embedding of `ApicL3ServicePlugin._map_names` (lines 47-55): each id is
mapped only when truthy (the empty string models a `None` id). -/
def ApicL3ServicePlugin._map_names (m : NameMapper)
    (tenant_id router_id net_id subnet_id : String) :
    String × String × String × String :=
  (pyAndStr tenant_id (m.tenant tenant_id),
   pyAndStr router_id (m.router router_id),
   pyAndStr net_id (m.network net_id),
   pyAndStr subnet_id (m.subnet subnet_id))

/-- Embedding of `add_router_interface_postcommit` (lines 76-93): resolve
network and tenant from the supplied subnet or port, map the ids, and call
the fabric client's `add_router_interface`. -/
def ApicL3ServicePlugin.add_router_interface_postcommit {ρ : Type}
    (p : L3Plugin ρ) (router_id : String) (info : InterfaceInfo) :
    Except PyErr Unit :=
  let nt : String × String :=
    match info with
    | InterfaceInfo.bySubnet sid =>
      let subnet := p.get_subnet sid
      (subnet.network_id, subnet.tenant_id)
    | InterfaceInfo.byPort pid =>
      let port := p.get_port pid
      (port.network_id, port.tenant_id)
  let mapped := ApicL3ServicePlugin._map_names p.name_mapper nt.2 router_id nt.1 ""
  p.fabric_add_router_interface mapped.1 mapped.2.1 mapped.2.2.1

/-- Embedding of `add_router_interface` (lines 152-165): the DB mixin
creates the interface first; the fabric-side postcommit runs inside a
`try`; on failure `save_and_reraise_exception` rolls the DB operation back
with `remove_router_interface` and re-raises the original error; on
success the DB result is returned. -/
def ApicL3ServicePlugin.add_router_interface {ρ : Type} (p : L3Plugin ρ)
    (router_id : String) (info : InterfaceInfo) :
    List L3Event × Except PyErr ρ :=
  let result := p.db_add_result router_id info
  match ApicL3ServicePlugin.add_router_interface_postcommit p router_id info with
  | Except.ok _ =>
    ([L3Event.dbAddRouterInterface router_id info], Except.ok result)
  | Except.error e =>
    ([L3Event.dbAddRouterInterface router_id info,
      L3Event.dbRemoveRouterInterface router_id info], Except.error e)

/-- C4: if the fabric-side postcommit raises after the logical interface
was created, the just-created interface is removed again by a compensating
DB `remove_router_interface` with the same arguments and the original
error is re-raised unchanged; if the fabric call succeeds, the logical
result is returned with no compensating call. -/
theorem add_router_interface_rollback {ρ : Type} (p : L3Plugin ρ)
    (router_id : String) (info : InterfaceInfo) :
    (∀ e, ApicL3ServicePlugin.add_router_interface_postcommit p router_id info =
        Except.error e →
      ApicL3ServicePlugin.add_router_interface p router_id info =
        ([L3Event.dbAddRouterInterface router_id info,
          L3Event.dbRemoveRouterInterface router_id info], Except.error e)) ∧
    (ApicL3ServicePlugin.add_router_interface_postcommit p router_id info =
        Except.ok () →
      ApicL3ServicePlugin.add_router_interface p router_id info =
        ([L3Event.dbAddRouterInterface router_id info],
         Except.ok (p.db_add_result router_id info))) := by
  constructor
  · intro e he
    simp [ApicL3ServicePlugin.add_router_interface, he]
  · intro he
    simp [ApicL3ServicePlugin.add_router_interface, he]

/-! ## Remaining concrete witnesses -/

/-- Concrete error raised by the witness fabric client. -/
def wErr : PyErr := PyErr.fabricError "AddRouterInterface failed"

/-- A concrete L3 plugin whose fabric client always raises on
`add_router_interface`. -/
def wL3PluginErr : L3Plugin String where
  name_mapper := sampleMapper
  get_subnet := fun sid =>
    { id := sid, network_id := "n1", tenant_id := "t",
      cidr := "10.0.0.0/24", gateway_ip := "10.0.0.1" }
  get_port := fun pid =>
    { id := pid, network_id := "n1", tenant_id := "t",
      device_owner := DEVICE_OWNER_ROUTER_INTF, device_id := "r1",
      host_id := Option.none }
  fabric_add_router_interface := fun _ _ _ => Except.error wErr
  db_add_result := fun r _ => "if-" ++ r

/-- The same plugin with a fabric client that succeeds. -/
def wL3PluginOk : L3Plugin String :=
  { wL3PluginErr with fabric_add_router_interface := fun _ _ _ => Except.ok () }

/-- Witness for `add_router_interface_rollback`: with the raising fabric
client the DB add is rolled back and the error re-raised; with the
succeeding one the DB result is returned. -/
theorem add_router_interface_rollback_witness :
    ApicL3ServicePlugin.add_router_interface wL3PluginErr "r1"
        (InterfaceInfo.bySubnet "s1") =
      ([L3Event.dbAddRouterInterface "r1" (InterfaceInfo.bySubnet "s1"),
        L3Event.dbRemoveRouterInterface "r1" (InterfaceInfo.bySubnet "s1")],
       Except.error wErr) ∧
    ApicL3ServicePlugin.add_router_interface wL3PluginOk "r1"
        (InterfaceInfo.bySubnet "s1") =
      ([L3Event.dbAddRouterInterface "r1" (InterfaceInfo.bySubnet "s1")],
       Except.ok "if-r1") :=
  ⟨(add_router_interface_rollback wL3PluginErr "r1"
      (InterfaceInfo.bySubnet "s1")).1 wErr rfl,
   (add_router_interface_rollback wL3PluginOk "r1"
      (InterfaceInfo.bySubnet "s1")).2 rfl⟩

/-- Concrete networks, subnet and port for the base-resync witness. -/
def wNet1 : Network :=
  { id := "n1", tenant_id := "t", name := "one", router_external := false }

/-- Second concrete network for the base-resync witness. -/
def wNet2 : Network :=
  { id := "n2", tenant_id := "t", name := "two", router_external := false }

/-- Concrete subnet for the base-resync witness. -/
def wSub1 : Subnet :=
  { id := "s1", network_id := "n1", tenant_id := "t",
    cidr := "10.0.0.0/24", gateway_ip := "10.0.0.1" }

/-- Concrete compute port for the base-resync witness. -/
def wPort1 : Port :=
  { id := "q1", network_id := "n1", tenant_id := "t",
    device_owner := "compute:nova", device_id := "vm", host_id := some "h1" }

/-- Concrete core plugin for the base-resync witness. -/
def wPlugin : CorePlugin where
  networks := [wNet1, wNet2]
  subnets := [wSub1]
  ports := [wPort1]
  get_network := fun nid =>
    if nid = "n1" then Except.ok wNet1 else Except.error (PyErr.notFound nid)

/-- Concrete replay driver for the base-resync witness: replaying network
`n1` raises, everything else succeeds. -/
def wSyncDriver : SyncDriver where
  create_network_postcommit := fun n =>
    if n.id = "n1" then Except.error (PyErr.fabricError "apic down")
    else Except.ok ()
  create_subnet_postcommit := fun _ => Except.ok ()
  create_port_postcommit := fun _ _ => Except.ok ()

/-- Witness for `sync_base_isolation`: with one of two network replays
raising, the pass returns normally, attempts all four entities in order
and logs the one warning. -/
theorem sync_base_isolation_witness :
    ∃ evs, ApicBaseSynchronizer._sync_base wPlugin wSyncDriver = Except.ok evs ∧
      attemptsOf evs =
        wPlugin.networks.map (fun n => SyncEvent.attemptNetwork n.id) ++
        wPlugin.subnets.map (fun s => SyncEvent.attemptSubnet s.id) ++
        wPlugin.ports.map (fun q => SyncEvent.attemptPort q.id) ∧
      (∀ n ∈ wPlugin.networks,
        exceptOk (wSyncDriver.create_network_postcommit n) = false →
        SyncEvent.warnNetwork n.id ∈ evs) ∧
      (∀ s ∈ wPlugin.subnets,
        exceptOk (wSyncDriver.create_subnet_postcommit s) = false →
        SyncEvent.warnSubnet s.id ∈ evs) ∧
      (∀ q ∈ wPlugin.ports, ∀ net,
        wPlugin.get_network q.network_id = Except.ok net →
        exceptOk (wSyncDriver.create_port_postcommit q net) = false →
        SyncEvent.warnPort q.id ∈ evs) :=
  sync_base_isolation wPlugin wSyncDriver (by decide)

/-- Router-interface port `pa` (its replay will fail) for the
router-resync witness. -/
def wPortA : Port :=
  { id := "pa", network_id := "n1", tenant_id := "t",
    device_owner := DEVICE_OWNER_ROUTER_INTF, device_id := "r1",
    host_id := Option.none }

/-- Router-interface port `pb` (its replay succeeds). -/
def wPortB : Port :=
  { id := "pb", network_id := "n1", tenant_id := "t",
    device_owner := DEVICE_OWNER_ROUTER_INTF, device_id := "r2",
    host_id := Option.none }

/-- Concrete core plugin for the router-resync witness: two
router-interface ports and one compute port. -/
def wRouterPlugin : CorePlugin where
  networks := []
  subnets := []
  ports := [wPortA, wPortB, wPort1]
  get_network := fun nid => Except.error (PyErr.notFound nid)

/-- Concrete replay for the router-resync witness: fails on port `pa`. -/
def wReplay : String → String → Except PyErr Unit := fun _ pid =>
  if pid = "pa" then Except.error (PyErr.fabricError "apic down")
  else Except.ok ()

/-- Witness for `sync_router_selection`: exactly the two router-interface
ports are attempted (the compute port is not) and the failed one is
warned. -/
theorem sync_router_selection_witness :
    routerAttemptsOf (ApicRouterSynchronizer._sync_router wRouterPlugin wReplay) =
      [RouterSyncEvent.attemptAddInterface "r1" "pa",
       RouterSyncEvent.attemptAddInterface "r2" "pb"] ∧
    RouterSyncEvent.warnAddInterface "r1" "pa" ∈
      ApicRouterSynchronizer._sync_router wRouterPlugin wReplay := by
  constructor
  · rw [(sync_router_selection wRouterPlugin wReplay).1]
    decide
  · exact (sync_router_selection wRouterPlugin wReplay).2 wPortA
      (by decide) (by decide) (by decide)
